import Mathlib

/-!
Verification development for the news-email FastAPI service.

The embedding models the four Python modules (`app.py`, `agent.py`,
`email_agent.py`, `expert_finder.py`).  JSON values produced by the
external LLM / search provider are modelled by `JValue`; Python
exceptions by `PyExc`; every external call site (SerpAPI search,
OpenAI chat completion) is a parameter of the embedded function, so a
function of the repository becomes a total Lean function of its inputs
and of the outcomes of its external calls.  Fallible Python code is
embedded as `Except PyExc _`: `.error e` means the Python function
raised `e` to its caller, `.ok v` means it returned `v`.
-/

/-- A JSON value as produced by `json.loads`.  Objects keep insertion
order, as Python dicts do. -/
inductive JValue where
  | null
  | bool (b : Bool)
  | num (n : Int)
  | str (s : String)
  | arr (xs : List JValue)
  | obj (kvs : List (String × JValue))

/-- Ordered-dict lookup (first binding wins, as in a Python dict where
keys are unique anyway). -/
def lookupKV : List (String × JValue) → String → Option JValue
  | [], _ => none
  | (k, v) :: rest, key => if k = key then some v else lookupKV rest key

/-- Model of `v[key]` / `key in v`: the value bound to `key` when `v` is
an object that has it. -/
def JValue.getKey : JValue → String → Option JValue
  | .obj kvs, key => lookupKV kvs key
  | _, _ => none

/-- Whether an object value binds `key`. -/
def JValue.hasKey (v : JValue) (key : String) : Bool :=
  (v.getKey key).isSome

/-- Python dict assignment `d[key] = v`: overwrite in place when the key
exists, else append at the end. -/
def setKey : List (String × JValue) → String → JValue → List (String × JValue)
  | [], key, v => [(key, v)]
  | (k, w) :: rest, key, v =>
    if k = key then (k, v) :: rest else (k, w) :: setKey rest key v

/-- Python truthiness of a parsed JSON value: `None`, `False`, `0`, the
empty string, the empty list and the empty dict are falsy. -/
def jTruthy : JValue → Bool
  | .null => false
  | .bool b => b
  | .num n => decide (n ≠ 0)
  | .str s => decide (s ≠ "")
  | .arr xs => !xs.isEmpty
  | .obj kvs => !kvs.isEmpty

/-- Does the character list `hay` start with `needle`? -/
def strStartsWithL : List Char → List Char → Bool
  | _, [] => true
  | [], _ :: _ => false
  | c :: cs, d :: ds => decide (c = d) && strStartsWithL cs ds

/-- Does the character list `hay` contain `needle` as a contiguous run? -/
def strContainsL : List Char → List Char → Bool
  | [], needle => needle.isEmpty
  | c :: rest, needle => strStartsWithL (c :: rest) needle || strContainsL rest needle

/-- Python `needle in hay` on strings (substring test). -/
def strContainsB (hay needle : String) : Bool :=
  strContainsL hay.data needle.data

/-- Predicate: `needle` occurs verbatim inside `hay`. -/
def StrContains (hay needle : String) : Prop :=
  ∃ pre post, hay = pre ++ needle ++ post

/-- Count the maximal non-whitespace runs in a character list; the flag
records whether the previous character was inside such a run. -/
def wordCountL : List Char → Bool → Nat
  | [], _ => 0
  | c :: rest, inWord =>
    if c.isWhitespace then wordCountL rest false
    else (if inWord then 0 else 1) + wordCountL rest true

/-- Model of `len(s.split())` in Python: the number of whitespace-separated words
(splitting on whitespace runs drops empty pieces). -/
def wordCount (s : String) : Int :=
  Int.ofNat (wordCountL s.data false)

/-- The Python exceptions the embedded code can raise or observe. -/
inductive PyExc where
  | httpException (code : Int) (detail : String)
  | valueError (msg : String)
  | attributeError (msg : String)
  | typeError (msg : String)
  | generic (ty : String) (msg : String)

/-- Model of `str(e)` for the exceptions above.  Starlette's `HTTPException`
stringifies as `"{code}: {detail}"` (braces shown figuratively). -/
def excMessage : PyExc → String
  | .httpException code detail => toString code ++ ": " ++ detail
  | .valueError m => m
  | .attributeError m => m
  | .typeError m => m
  | .generic _ m => m

/-- Model of `type(e).__name__` for the exceptions above. -/
def excTypeName : PyExc → String
  | .httpException _ _ => "HTTPException"
  | .valueError _ => "ValueError"
  | .attributeError _ => "AttributeError"
  | .typeError _ => "TypeError"
  | .generic ty _ => ty

/-- The Python runtime type name of a parsed JSON value. -/
def pyTypeName : JValue → String
  | .null => "NoneType"
  | .bool _ => "bool"
  | .num _ => "int"
  | .str _ => "str"
  | .arr _ => "list"
  | .obj _ => "dict"

/-- Message of the `AttributeError` raised by `v.get(...)` when `v` is
not a dict. -/
def attrErrMsgGet (v : JValue) : String :=
  "\x27" ++ pyTypeName v ++ "\x27 object has no attribute \x27get\x27"

/-- Message of the `TypeError` raised by `key in v` when `v` is not
iterable. -/
def notIterableMsg (v : JValue) : String :=
  "argument of type \x27" ++ pyTypeName v ++ "\x27 is not iterable"

/-- Message of the `TypeError` raised by `v[key] = x` when `v` is not a
dict. -/
def itemAssignErrMsg (v : JValue) : String :=
  "\x27" ++ pyTypeName v ++ "\x27 object does not support item assignment"

/-- Message of the `TypeError` raised by `\x7b**v\x7d` when `v` is not a
mapping. -/
def notMappingMsg (v : JValue) : String :=
  "\x27" ++ pyTypeName v ++ "\x27 object is not a mapping"

/-! ## `app.py`: news fetching (SerpAPI) -/

/-- A structured news story, from the pydantic model `NewsStory` in
`app.py`. -/
structure NewsStory where
  headline : String
  summary : String
  significance : String
  key_entities : List String
  commentary_note : String

/-- One raw hit of the search provider's `news_results` list.  The
fields the code reads (`title`, `snippet`, `source`, `link`, `date`)
are optional, matching `story.get(...)` / `"source" in story`. -/
structure RawHit where
  title : Option String
  snippet : Option String
  source : Option String
  link : Option String
  date : Option String

/-- The provider dict returned by `search.get_dict()`: the optional
`news_results` section plus whatever other keys the provider sends
(ignored by the code). -/
structure SerpResults where
  news_results : Option (List RawHit)
  otherKeys : List (String × JValue)

/-- The value `[{"output": {"news_stories": [...]}}]` that
`fetch_news_by_category` returns, reduced to its payload. -/
structure FetchResponse where
  news_stories : List NewsStory

/-- Boilerplate `significance` string from `app.py` line 99. -/
def significanceBoilerplate : String :=
  "This story is significant as it represents current developments in important global events."

/-- Boilerplate `commentary_note` string from `app.py` line 101. -/
def commentaryBoilerplate : String :=
  "Expert analysis would provide deeper insights into the implications and potential developments."

/-- The loop body of `fetch_news_by_category` (`app.py` lines 89-103):
normalize one raw hit into a `NewsStory`. -/
def mkNewsStory (story : RawHit) : NewsStory :=
  { headline := story.title.getD ""
    summary := story.snippet.getD ""
    significance := significanceBoilerplate
    key_entities :=
      match story.source with
      | some s => [s]
      | none => []
    commentary_note := commentaryBoilerplate }

/-- Function `fetch_news_by_category` (`app.py` lines 67-115).  The argument is
the outcome of the SerpAPI call; any exception there is re-raised as
`HTTPException(status_code=500, detail=str(e))`. -/
def fetch_news_by_category (serp : Except PyExc SerpResults) : Except PyExc FetchResponse :=
  match serp with
  | .error e => .error (.httpException 500 (excMessage e))
  | .ok results => .ok ⟨(results.news_results.getD []).map mkNewsStory⟩

/-- One story of `fetch_general_news` (`app.py` lines 307-313), already
defaulted with `story.get(..., "")`. -/
structure GeneralNewsItem where
  headline : String
  summary : String
  source : String
  link : String
  published : String

/-- The dict returned by `fetch_general_news`. -/
structure GeneralResponse where
  news_stories : List GeneralNewsItem
  timestamp : String
  error : Option String

/-- Function `fetch_general_news` (`app.py` lines 278-332): catches its own
exceptions and returns an empty story list with an `error` field
instead of raising. -/
def fetch_general_news (serp : Except PyExc SerpResults) (now : String) : GeneralResponse :=
  match serp with
  | .error e => { news_stories := [], timestamp := now, error := some (excMessage e) }
  | .ok results =>
    { news_stories :=
        (results.news_results.getD []).map (fun story =>
          { headline := story.title.getD ""
            summary := story.snippet.getD ""
            source := story.source.getD ""
            link := story.link.getD ""
            published := story.date.getD "" })
      timestamp := now
      error := none }

/-- The reformatting in `get_top_news` (`app.py` lines 347-359) feeding
`fetch_general_news` output to the analyzer: note `key_entities` is
always the one-element list `[story.get("source", "")]` here. -/
def formatNewsForAnalyzer (g : GeneralResponse) : FetchResponse :=
  ⟨g.news_stories.map (fun story =>
    { headline := story.headline
      summary := story.summary
      significance := significanceBoilerplate
      key_entities := [story.source]
      commentary_note := commentaryBoilerplate })⟩

/-! ## `agent.py`: news analysis -/

/-- Method `NewsAnalyzer.analyze_news` (`agent.py` lines 23-97).  `news_data`
is the fetched wrapper the method indexes into for the prompt; `llm` is
the combined outcome of the OpenAI call and `json.loads` (a JSON parse
failure is an `.error` with type `JSONDecodeError`).  Any exception in
the `try` block is re-raised as
`Exception("Error analyzing news: " + str(e))`. -/
def analyze_news (news_data : FetchResponse) (llm : Except PyExc JValue) : Except PyExc JValue :=
  match news_data, llm with
  | _, .error e => .error (.generic "Exception" ("Error analyzing news: " ++ excMessage e))
  | _, .ok analysis => .ok analysis

/-- Function `analyze_news_stories` (`agent.py` lines 99-109): runs the analyzer
then sets `analysis["analysis_timestamp"]`; item assignment on a
non-dict raises `TypeError`, and nothing here is caught. -/
def analyze_news_stories (news_data : FetchResponse) (llm : Except PyExc JValue)
    (now : String) : Except PyExc JValue :=
  match analyze_news news_data llm with
  | .error e => .error e
  | .ok (.obj kvs) => .ok (.obj (setKey kvs "analysis_timestamp" (.str now)))
  | .ok v => .error (.typeError (itemAssignErrMsg v))

/-! ## `app.py`: the news-analysis routes -/

/-- The error envelope built in the `except` branches of
`/news/analysis/category` (`app.py` lines 144-152) and `/news/top`
(lines 370-378). -/
def analysisErrorBody (errNow msg : String) : JValue :=
  .obj [("output", .obj [("selected_topics", .arr []),
                         ("analysis_timestamp", .str errNow)]),
        ("status", .str "error"),
        ("status_code", .num 500),
        ("error", .str msg)]

/-- Route `POST /news/analysis/category` (`app.py` lines 117-152).
`serp` is the SerpAPI outcome, `llm` the analyzer's LLM outcome, `now`
and `errNow` the timestamps taken in `agent.py` and in the `except`
branch.  The blanket `except Exception` catches everything raised in
the `try`, `HTTPException` included, so the route always returns a
body (HTTP 200). -/
def analyze_news_by_category (serp : Except PyExc SerpResults) (llm : Except PyExc JValue)
    (now errNow : String) : Except PyExc JValue :=
  match fetch_news_by_category serp with
  | .error e => .ok (analysisErrorBody errNow (excMessage e))
  | .ok news_data =>
    match analyze_news_stories news_data llm now with
    | .error e => .ok (analysisErrorBody errNow (excMessage e))
    | .ok analysis =>
      .ok (.obj [("output", analysis), ("status", .str "success"), ("status_code", .num 200)])

/-- Route `GET /news/top` (`app.py` lines 334-378).  `fetch_general_news`
never raises, so only the analysis step can reach the `except` branch. -/
def get_top_news (serp : Except PyExc SerpResults) (llm : Except PyExc JValue)
    (fetchNow now errNow : String) : Except PyExc JValue :=
  match analyze_news_stories (formatNewsForAnalyzer (fetch_general_news serp fetchNow)) llm now with
  | .error e => .ok (analysisErrorBody errNow (excMessage e))
  | .ok analysis =>
    .ok (.obj [("output", analysis), ("status", .str "success"), ("status_code", .num 200)])

/-! ## `email_agent.py` and the email routes of `app.py` -/

/-- The pydantic model `ExpertInput` from `app.py`. -/
structure ExpertInput where
  topic : String
  name : String
  institution : String
  expertise : String
  notable_work : String
  unique_perspective : String
  contact_method : String
  suggested_questions : List String
  contact_info : String

/-- The pydantic model `SimpleEmailInput` from `app.py`. -/
structure SimpleEmailInput where
  subject : String
  body : String
  name : String

/-- Method `EmailGenerator.generate_email` (`email_agent.py` lines 22-95).
`llm` is the combined outcome of the OpenAI call and `json.loads`; any
exception is re-raised as
`Exception("Error generating email template: " + str(e))`. -/
def generate_email (llm : Except PyExc JValue) : Except PyExc JValue :=
  match llm with
  | .ok v => .ok v
  | .error e => .error (.generic "Exception" ("Error generating email template: " ++ excMessage e))

/-- Function `generate_expert_email` (`email_agent.py` lines 98-109): constructs
the generator and delegates; the expert data only shapes the prompt. -/
def generate_expert_email (_expert_data : ExpertInput) (llm : Except PyExc JValue) :
    Except PyExc JValue :=
  generate_email llm

/-- The fallback body of the `except` branch of `POST /email/generate`
(`app.py` lines 171-186). -/
def emailErrorBody (expert : ExpertInput) (msg : String) : JValue :=
  .obj [("email_templates", .arr [
          .obj [("expert_name", .str expert.name),
                ("topic", .str expert.topic),
                ("subject", .str ("Expert Commentary Request: " ++ expert.topic
                                   ++ " - Response Needed in 6 Hours")),
                ("greeting", .str ("Dear " ++ expert.name ++ ",")),
                ("email_body", .str ("Error generating email: " ++ msg)),
                ("signature", .str "Best regards,\nNews Analysis Team\nsupport@example.com\n(123) 456-7890")]]),
        ("status", .str "error"),
        ("status_code", .num 500)]

/-- Route `POST /email/generate` (`app.py` lines 154-186): on success
the generator payload is returned unchanged (no envelope); on any
exception the fallback body is returned with HTTP 200. -/
def generate_email_template (expert_data : ExpertInput) (llm : Except PyExc JValue) :
    Except PyExc JValue :=
  match generate_expert_email expert_data llm with
  | .ok v => .ok v
  | .error e => .ok (emailErrorBody expert_data (excMessage e))

/-- The fallback body of the `except` branch of
`POST /format-simple-email` (`app.py` lines 464-477). -/
def simpleEmailErrorBody (email_data : SimpleEmailInput) (msg : String) : JValue :=
  .obj [("formatted_email", .obj [
          ("subject", .str email_data.subject),
          ("greeting", .str "Dear Editor,"),
          ("introduction", .str "I\x27m sharing the following expert commentary that may be of interest to your audience."),
          ("formatted_body", .str email_data.body),
          ("closing", .str ("Best regards,\n" ++ email_data.name))]),
        ("word_count", .num (wordCount email_data.body)),
        ("key_points", .arr [.str "Error occurred while formatting the email"]),
        ("status", .str "error"),
        ("status_code", .num 500),
        ("error", .str msg)]

/-- Route `POST /format-simple-email` (`app.py` lines 380-477).  On
success the parsed LLM payload is spread at top level with `status` and
`status_code` added; spreading a non-mapping raises `TypeError`, which
the `except` branch turns into the fallback body. -/
def format_simple_email (email_data : SimpleEmailInput) (llm : Except PyExc JValue) :
    Except PyExc JValue :=
  match llm with
  | .ok (.obj kvs) =>
    .ok (.obj (setKey (setKey kvs "status" (.str "success")) "status_code" (.num 200)))
  | .ok v => .ok (simpleEmailErrorBody email_data (notMappingMsg v))
  | .error e => .ok (simpleEmailErrorBody email_data (excMessage e))

/-! ## `expert_finder.py` -/

/-- A topic dict as consumed by `ExpertFinder` (`topic.get("topic_id", 1)`
and `topic.get("headline", "")` are the only reads). -/
structure TopicDict where
  topic_id : Option Int
  headline : Option String

/-- The `topic` string the prompt template embeds at `expert_finder.py`
line 52: the exact input headline (default empty). -/
def promptTopicHeadline (topic : TopicDict) : String :=
  topic.headline.getD ""

/-- The `topic_id` the prompt template embeds at `expert_finder.py`
line 51. -/
def promptTopicId (topic : TopicDict) : Int :=
  topic.topic_id.getD 1

/-- A mocked LLM that honors the prompt: it echoes back exactly the
JSON skeleton requested at `expert_finder.py` lines 47-69, whose
`topic_id` and `topic` fields the prompt embeds from the input topic
(`promptTopicId`, `promptTopicHeadline`). -/
def echoLLMResponse (topic : TopicDict) : JValue :=
  .obj [("expert_recommendations", .arr [
    .obj [("topic_id", .num (promptTopicId topic)),
          ("topic", .str (promptTopicHeadline topic)),
          ("experts", .arr [])]])]

/-- An expert entry of the fallback structures in `expert_finder.py`
(identical field skeleton in all three handlers). -/
def placeholderExpert (nm inst expertise : String) : JValue :=
  .obj [("name", .str nm),
        ("institution", .str inst),
        ("expertise", .str expertise),
        ("notable_work", .str "N/A"),
        ("unique_perspective", .str "N/A"),
        ("contact_method", .str "N/A"),
        ("suggested_questions", .arr []),
        ("contact_info", .str "support@example.com")]

/-- An `expert_recommendations` entry carrying the defaulted topic id
and headline. -/
def recommendationFor (topic : TopicDict) (experts : List JValue) : JValue :=
  .obj [("topic_id", .num (topic.topic_id.getD 1)),
        ("topic", .str (topic.headline.getD "")),
        ("experts", .arr experts)]

/-- The `openai.error.AuthenticationError` handler's return value
(`expert_finder.py` lines 124-148). -/
def authFallback (topic : TopicDict) : JValue :=
  .obj [("error", .bool true),
        ("expert_recommendations", .arr [
          recommendationFor topic [placeholderExpert "API Authentication Error"
            "Please check your OpenAI API key"
            "OpenAI API authentication error. Please check your API key."]])]

/-- The `openai.error.RateLimitError` handler's return value
(`expert_finder.py` lines 150-174). -/
def rateLimitFallback (topic : TopicDict) : JValue :=
  .obj [("error", .bool true),
        ("expert_recommendations", .arr [
          recommendationFor topic [placeholderExpert "API Rate Limit Error"
            "Please try again later"
            "OpenAI API rate limit exceeded. Please try again later."]])]

/-- The generic `except Exception` handler's return value
(`expert_finder.py` lines 176-207), whose expertise text carries
`f"API error: {type}: {message}"` (braces shown figuratively). -/
def genericFallback (topic : TopicDict) (ty msg : String) : JValue :=
  .obj [("error", .bool true),
        ("expert_recommendations", .arr [
          recommendationFor topic [placeholderExpert "Error fetching experts"
            "Please try again later"
            ("API error: " ++ ty ++ ": " ++ msg)]])]

/-- The minimal structure substituted when the parsed response lacks
`expert_recommendations` (`expert_finder.py` lines 109-120). -/
def defaultStructure (topic : TopicDict) : JValue :=
  .obj [("expert_recommendations", .arr [recommendationFor topic []])]

/-- Python `"key" in v` on a parsed JSON value: key membership on a
dict, element equality on a list, substring test on a string,
`TypeError` otherwise. -/
def pyContains (v : JValue) (key : String) : Except PyExc Bool :=
  match v with
  | .obj kvs => .ok (kvs.any (fun p => decide (p.1 = key)))
  | .arr xs =>
    .ok (xs.any (fun x => match x with | .str s => decide (s = key) | _ => false))
  | .str s => .ok (strContainsB s key)
  | v => .error (.typeError (notIterableMsg v))

/-- Outcome of the OpenAI call plus `json.loads` inside
`find_experts_for_topic`, as observed at the `try` block. -/
inductive LLMOutcome where
  | success (v : JValue)
  | emptyContent
  | parseError (msg : String)
  | authError (msg : String)
  | rateLimitError (msg : String)
  | otherExc (ty msg : String)

/-- Method `ExpertFinder.find_experts_for_topic` (`expert_finder.py` lines
24-207), with the `except` clauses resolving as written (an exception
escaping this method instead — for example because the handler types
themselves fail to resolve — is modelled by `FinderCallOutcome.raises`
below).  `apiKey` is `openai.api_key`. -/
def find_experts_for_topic (topic : TopicDict) (apiKey : String) (llm : LLMOutcome) : JValue :=
  if apiKey.length < 10 then
    genericFallback topic "ValueError"
      "OpenAI API key is missing or invalid. Please check your .env file."
  else
    match llm with
    | .success v =>
      match pyContains v "expert_recommendations" with
      | .ok true => v
      | .ok false => defaultStructure topic
      | .error e => genericFallback topic (excTypeName e) (excMessage e)
    | .emptyContent =>
      genericFallback topic "ValueError" "Empty response received from OpenAI API"
    | .parseError msg => genericFallback topic "JSONDecodeError" msg
    | .authError _ => authFallback topic
    | .rateLimitError _ => rateLimitFallback topic
    | .otherExc ty msg => genericFallback topic ty msg

/-- The fallback of the module-level wrapper's `except` branch
(`expert_finder.py` lines 227-252). -/
def singleTopicFallback (topic : TopicDict) (msg : String) : JValue :=
  .obj [("error", .bool true),
        ("expert_recommendations", .arr [
          recommendationFor topic [placeholderExpert "Error fetching experts"
            "Please try again later"
            ("Function error: " ++ msg)]])]

/-- What the call `finder.find_experts_for_topic(topic)` does: either it
returns per the method body above, or an exception escapes it (for
example `AttributeError` while resolving `openai.error` in an `except`
clause under openai >= 1.0). -/
inductive FinderCallOutcome where
  | returns (apiKey : String) (llm : LLMOutcome)
  | raises (e : PyExc)

/-- The wrapper body of `find_experts_for_single_topic`
(`expert_finder.py` lines 209-252) applied to the outcome of the inner
call: falsy data raises `ValueError` (caught below); `.get` on a
non-dict raises `AttributeError` (caught below); both error-flagged and
clean dicts are returned unchanged. -/
def find_experts_for_single_topic_core (topic : TopicDict) (inner : Except PyExc JValue) : JValue :=
  match inner with
  | .error e => singleTopicFallback topic (excMessage e)
  | .ok experts_data =>
    if jTruthy experts_data = false then
      singleTopicFallback topic "No expert data was returned"
    else
      match experts_data with
      | .obj kvs => .obj kvs
      | v => singleTopicFallback topic (attrErrMsgGet v)

/-- Function `find_experts_for_single_topic` (`expert_finder.py` lines 209-252)
as a function of the topic and of how the inner finder call goes. -/
def find_experts_for_single_topic (topic : TopicDict) (call : FinderCallOutcome) : JValue :=
  find_experts_for_single_topic_core topic
    (match call with
     | .returns apiKey llm => .ok (find_experts_for_topic topic apiKey llm)
     | .raises e => .error e)

/-! ## `app.py`: route `POST /news/experts/topic` -/

/-- The pydantic model `TopicInput` from `app.py`. -/
structure TopicInput where
  topic_id : Int
  headline : String
  summary : String
  need_for_commentary : String
  expert_angles : List String

/-- Model of `topic.dict()` as passed by the route into the finder: every field
is present. -/
def TopicInput.toDict (t : TopicInput) : TopicDict :=
  { topic_id := some t.topic_id, headline := some t.headline }

/-- The expert entry of the route-level fallbacks in
`POST /news/experts/topic`. -/
def apiErrorExpert (expertise : String) : JValue :=
  placeholderExpert "API Error" "Please try again later" expertise

/-- The `except` branch body of `POST /news/experts/topic` (`app.py`
lines 248-275). -/
def routeExpertErrorBody (topic : TopicInput) (msg : String) : JValue :=
  .obj [("output", .obj [("expert_recommendations", .arr [
          .obj [("topic_id", .num topic.topic_id),
                ("topic", .str topic.headline),
                ("experts", .arr [apiErrorExpert ("Error: " ++ msg)])]])]),
        ("status", .str "error"),
        ("status_code", .num 500)]

/-- The invalid-format branch body of `POST /news/experts/topic`
(`app.py` lines 219-244); `topic_dict.get` always finds the keys since
pydantic guarantees them. -/
def invalidFormatBody (topic : TopicInput) : JValue :=
  .obj [("output", .obj [("expert_recommendations", .arr [
          .obj [("topic_id", .num topic.topic_id),
                ("topic", .str topic.headline),
                ("experts", .arr [apiErrorExpert "An error occurred processing your request"])]])]),
        ("status", .str "error"),
        ("status_code", .num 500)]

/-- Route `POST /news/experts/topic` (`app.py` lines 188-275).  `call`
is the outcome of `find_experts_for_single_topic(topic_dict)` (an
`.error` models any exception escaping the `try` body). -/
def get_experts_for_topic (topic : TopicInput) (call : Except PyExc JValue) :
    Except PyExc JValue :=
  match call with
  | .error e => .ok (routeExpertErrorBody topic (excMessage e))
  | .ok experts_data =>
    match experts_data with
    | .obj kvs =>
      if jTruthy ((lookupKV kvs "error").getD (.bool false)) then
        .ok (.obj [("output", .obj kvs),
                   ("status", .str "error"),
                   ("status_code", .num 500),
                   ("error_message", .str "Failed to get experts. Check server logs for details.")])
      else if kvs.isEmpty then
        .ok (invalidFormatBody topic)
      else
        .ok (.obj [("output", .obj kvs), ("status", .str "success"), ("status_code", .num 200)])
    | v => .ok (routeExpertErrorBody topic (attrErrMsgGet v))

/-! ## Spec-level predicates -/

/-- The PipelineEnvelope wire shape of the spec: an `output` key, a
`status` key equal to `success` or `error`, and an integer
`status_code`. -/
def isPipelineEnvelope (b : JValue) : Prop :=
  b.hasKey "output" = true ∧
  (b.getKey "status" = some (.str "success") ∨ b.getKey "status" = some (.str "error")) ∧
  ∃ n : Int, b.getKey "status_code" = some (.num n)

/-- The experts list of the first entry of `expert_recommendations`. -/
def expertsOfFirstRec (r : JValue) : Option (List JValue) :=
  match r.getKey "expert_recommendations" with
  | some (.arr (rec :: _)) =>
    match rec.getKey "experts" with
    | some (.arr es) => some es
    | _ => none
  | _ => none

/-- The value `r` has a first `expert_recommendations` entry carrying
the input topic's defaulted `topic_id` and `headline`. -/
def FirstRecDefaulted (topic : TopicDict) (r : JValue) : Prop :=
  ∃ rec rest, r.getKey "expert_recommendations" = some (.arr (rec :: rest)) ∧
    rec.getKey "topic_id" = some (.num (topic.topic_id.getD 1)) ∧
    rec.getKey "topic" = some (.str (topic.headline.getD ""))

/-- The finder call returned a parsed object that already contains the
`expert_recommendations` key with a valid API key: the one scenario in
which `find_experts_for_single_topic` passes the LLM output through
unmodified. -/
def PassThroughCall (call : FinderCallOutcome) : Prop :=
  ∃ apiKey kvs, call = .returns apiKey (.success (.obj kvs)) ∧
    ¬ apiKey.length < 10 ∧
    kvs.any (fun p => decide (p.1 = "expert_recommendations")) = true

/-! ## Helper lemmas -/

lemma envelope_analysisErrorBody (errNow msg : String) :
    isPipelineEnvelope (analysisErrorBody errNow msg) :=
  ⟨rfl, Or.inr rfl, 500, rfl⟩

lemma envelope_success_output (payload : JValue) :
    isPipelineEnvelope (.obj [("output", payload), ("status", .str "success"),
                              ("status_code", .num 200)]) :=
  ⟨rfl, Or.inl rfl, 200, rfl⟩

lemma firstRec_singleTopicFallback (topic : TopicDict) (msg : String) :
    FirstRecDefaulted topic (singleTopicFallback topic msg) :=
  ⟨_, [], rfl, rfl, rfl⟩

lemma firstRec_genericFallback (topic : TopicDict) (ty msg : String) :
    FirstRecDefaulted topic (genericFallback topic ty msg) :=
  ⟨_, [], rfl, rfl, rfl⟩

lemma firstRec_authFallback (topic : TopicDict) :
    FirstRecDefaulted topic (authFallback topic) :=
  ⟨_, [], rfl, rfl, rfl⟩

lemma firstRec_rateLimitFallback (topic : TopicDict) :
    FirstRecDefaulted topic (rateLimitFallback topic) :=
  ⟨_, [], rfl, rfl, rfl⟩

lemma firstRec_defaultStructure (topic : TopicDict) :
    FirstRecDefaulted topic (defaultStructure topic) :=
  ⟨_, [], rfl, rfl, rfl⟩

lemma lookupKV_isSome_of_any (kvs : List (String × JValue)) (key : String)
    (h : kvs.any (fun p => decide (p.1 = key)) = true) :
    (lookupKV kvs key).isSome = true := by
  induction kvs with
  | nil => simp at h
  | cons p rest ih =>
    obtain ⟨k, v⟩ := p
    by_cases hk : k = key
    · simp [lookupKV, hk]
    · simp only [List.any_cons, Bool.or_eq_true, decide_eq_true_eq] at h
      rcases h with h | h
    
      · exact absurd h hk
      · simpa [lookupKV, hk] using ih h

lemma core_ok_obj (topic : TopicDict) (kvs : List (String × JValue)) (h : kvs ≠ []) :
    find_experts_for_single_topic_core topic (.ok (.obj kvs)) = .obj kvs := by
  have : jTruthy (.obj kvs) = true := by
    simp [jTruthy, List.isEmpty_iff, h]
  simp [find_experts_for_single_topic_core, this]

lemma strContains_left_append (a b m : String) : StrContains (a ++ (b ++ m)) m := by
  refine ⟨a ++ b, "", ?_⟩
  rw [String.append_empty, String.append_assoc]

/-! ## Claim theorems -/

/-- Claim C2 (code bug): `fetch_news_by_category` raises
`HTTPException(status_code=500)` when the provider call throws, which
is the code declaring that the client should see HTTP 500 — but the
blanket `except Exception` of `POST /news/analysis/category` also
catches `HTTPException`, so the route returns an ordinary body (HTTP
200) whose `status_code` field is 500 instead of an HTTP 500 response.
Evaluated here at a provider failure `Exception("Connection error")`. -/
theorem fetch_failure_swallowed_to_http200 :
    fetch_news_by_category (.error (.generic "Exception" "Connection error"))
        = .error (.httpException 500 "Connection error") ∧
    analyze_news_by_category (.error (.generic "Exception" "Connection error")) (.ok .null)
        "2025-01-01 10:00:00" "2025-01-01 10:00:01.000000"
        = .ok (.obj [("output", .obj [("selected_topics", .arr []),
                                      ("analysis_timestamp", .str "2025-01-01 10:00:01.000000")]),
                     ("status", .str "error"),
                     ("status_code", .num 500),
                     ("error", .str "500: Connection error")]) :=
  ⟨rfl, rfl⟩

/-- Claim C5: when the `EmailDrafter` LLM call fails with any
exception, `POST /email/generate` returns exactly one email template
whose `subject` contains the input expert's topic string verbatim and
whose `email_body` contains the error message text verbatim. -/
theorem email_drafter_failure_fallback (expert : ExpertInput) (e : PyExc) :
    ∃ b tmpl,
      generate_email_template expert (.error e) = .ok b ∧
      b.getKey "email_templates" = some (.arr [tmpl]) ∧
      (∃ s, tmpl.getKey "subject" = some (.str s) ∧ StrContains s expert.topic) ∧
      (∃ bod, tmpl.getKey "email_body" = some (.str bod) ∧ StrContains bod (excMessage e)) := by
  refine ⟨_, _, rfl, rfl, ⟨_, rfl, "Expert Commentary Request: ",
    " - Response Needed in 6 Hours", rfl⟩, ⟨_, rfl, ?_⟩⟩
  exact strContains_left_append "Error generating email: "
    "Error generating email template: " (excMessage e)

/-- Claim C6: any `TopicSelector` failure (LLM error or JSON parse
error) is re-raised by `analyze_news` as the single wrapped type
`Exception("Error analyzing news: ...")`, and the route layer of
`POST /news/analysis/category` converts it into an error envelope whose
`output` holds an empty `selected_topics` list plus an
`analysis_timestamp`, still an HTTP 200 body. -/
theorem analyzer_failure_enveloped (news_data : FetchResponse) (serp : SerpResults)
    (e : PyExc) (now errNow : String) :
    analyze_news news_data (.error e)
        = .error (.generic "Exception" ("Error analyzing news: " ++ excMessage e)) ∧
    analyze_news_by_category (.ok serp) (.error e) now errNow
        = .ok (analysisErrorBody errNow ("Error analyzing news: " ++ excMessage e)) ∧
    (analysisErrorBody errNow ("Error analyzing news: " ++ excMessage e)).getKey "output"
        = some (.obj [("selected_topics", .arr []), ("analysis_timestamp", .str errNow)]) ∧
    (analysisErrorBody errNow ("Error analyzing news: " ++ excMessage e)).getKey "status"
        = some (.str "error") :=
  ⟨rfl, rfl, rfl, rfl⟩

/-- Claim C8: a provider response with no `news_results` field makes
`fetch_news_by_category` return an empty story list, not an error,
whatever the rest of the provider dict holds. -/
theorem missing_news_results_yields_empty (rest : List (String × JValue)) :
    fetch_news_by_category (.ok ⟨none, rest⟩) = .ok ⟨[]⟩ :=
  rfl

/-- Claim C9: the normalization of `fetch_news_by_category` maps each
raw hit's `title` to `headline`, `snippet` to `summary`, puts the hit's
`source` (when present) as the first and only element of
`key_entities`, and fills `significance` and `commentary_note` with the
fixed boilerplate strings. -/
theorem raw_hit_normalization (hit : RawHit) (hits : List RawHit)
    (rest : List (String × JValue)) :
    fetch_news_by_category (.ok ⟨some hits, rest⟩) = .ok ⟨hits.map mkNewsStory⟩ ∧
    (mkNewsStory hit).headline = hit.title.getD "" ∧
    (mkNewsStory hit).summary = hit.snippet.getD "" ∧
    (mkNewsStory hit).key_entities.head? = hit.source ∧
    (mkNewsStory hit).significance = significanceBoilerplate ∧
    (mkNewsStory hit).commentary_note = commentaryBoilerplate := by
  refine ⟨rfl, rfl, rfl, ?_, rfl, rfl⟩
  rcases hit with ⟨t, sn, so, l, d⟩
  cases so <;> rfl

/-- Claim C1 (counterexample): the claim says every route's body is
PipelineEnvelope-shaped, in particular that `POST /email/generate` and
`POST /format-simple-email` wrap their payload in an `output` key.  At
a concrete internal failure both routes return bodies with no `output`
key at all. -/
theorem email_routes_not_enveloped :
    (∃ b, format_simple_email ⟨"Subject line", "Body text", "Alex"⟩
            (.error (.generic "Exception" "boom")) = .ok b ∧
          b.hasKey "output" = false ∧ b.hasKey "status" = true) ∧
    (∃ b, generate_email_template
            ⟨"Grid reform", "Pat", "Inst", "Energy", "Work", "Angle", "email", [], "p@i.edu"⟩
            (.error (.generic "Exception" "boom")) = .ok b ∧
          b.hasKey "output" = false ∧ b.hasKey "status" = true) :=
  ⟨⟨_, rfl, rfl, rfl⟩, ⟨_, rfl, rfl, rfl⟩⟩

/-- Claim C1 (amended): the three news/expert routes
(`POST /news/analysis/category`, `GET /news/top`,
`POST /news/experts/topic`) return a PipelineEnvelope-shaped body
(`output`, `status` in success/error, integer `status_code`) on every
outcome; but `POST /email/generate` and `POST /format-simple-email` do
not wrap their payload in `output`: the first returns the generator
payload unchanged on success and an `email_templates` body without
`output` on failure, the second spreads the LLM payload at top level on
success and returns a `formatted_email` body without `output` on
failure. -/
theorem envelope_shapes_by_route :
    (∀ (serp : Except PyExc SerpResults) (llm : Except PyExc JValue) (now errNow : String),
      ∃ b, analyze_news_by_category serp llm now errNow = .ok b ∧ isPipelineEnvelope b) ∧
    (∀ (serp : Except PyExc SerpResults) (llm : Except PyExc JValue) (n1 n2 n3 : String),
      ∃ b, get_top_news serp llm n1 n2 n3 = .ok b ∧ isPipelineEnvelope b) ∧
    (∀ (topic : TopicInput) (call : Except PyExc JValue),
      ∃ b, get_experts_for_topic topic call = .ok b ∧ isPipelineEnvelope b) ∧
    (∀ (expert : ExpertInput) (v : JValue),
      generate_email_template expert (.ok v) = .ok v) ∧
    (∀ (expert : ExpertInput) (e : PyExc),
      ∃ b, generate_email_template expert (.error e) = .ok b ∧
        b.hasKey "output" = false ∧ b.hasKey "status" = true ∧ b.hasKey "status_code" = true) ∧
    (∀ (email : SimpleEmailInput) (kvs : List (String × JValue)),
      format_simple_email email (.ok (.obj kvs))
        = .ok (.obj (setKey (setKey kvs "status" (.str "success")) "status_code" (.num 200)))) ∧
    (∀ (email : SimpleEmailInput) (e : PyExc),
      ∃ b, format_simple_email email (.error e) = .ok b ∧
        b.hasKey "output" = false ∧ b.hasKey "status" = true ∧ b.hasKey "status_code" = true) := by
  refine ⟨?_, ?_, ?_, ?_, ?_, ?_, ?_⟩
  · intro serp llm now errNow
    rcases serp with e | results
    · exact ⟨_, rfl, envelope_analysisErrorBody _ _⟩
    · rcases llm with e | v
      · exact ⟨_, rfl, envelope_analysisErrorBody _ _⟩
      · cases v <;>
          first
          | exact ⟨_, rfl, envelope_success_output _⟩
          | exact ⟨_, rfl, envelope_analysisErrorBody _ _⟩
  · intro serp llm n1 n2 n3
    rcases llm with e | v
    · exact ⟨_, rfl, envelope_analysisErrorBody _ _⟩
    · cases v <;>
        first
        | exact ⟨_, rfl, envelope_success_output _⟩
        | exact ⟨_, rfl, envelope_analysisErrorBody _ _⟩
  · intro topic call
    rcases call with e | v
    · exact ⟨_, rfl, rfl, Or.inr rfl, 500, rfl⟩
    · cases v with
      | obj kvs =>
        simp only [get_experts_for_topic]
        split
        · exact ⟨_, rfl, rfl, Or.inr rfl, 500, rfl⟩
        · split
          · exact ⟨_, rfl, rfl, Or.inr rfl, 500, rfl⟩
          · exact ⟨_, rfl, rfl, Or.inl rfl, 200, rfl⟩
      | null => exact ⟨_, rfl, rfl, Or.inr rfl, 500, rfl⟩
      | bool b => exact ⟨_, rfl, rfl, Or.inr rfl, 500, rfl⟩
      | num n => exact ⟨_, rfl, rfl, Or.inr rfl, 500, rfl⟩
      | str s => exact ⟨_, rfl, rfl, Or.inr rfl, 500, rfl⟩
      | arr xs => exact ⟨_, rfl, rfl, Or.inr rfl, 500, rfl⟩
  · intro expert v
    rfl
  · intro expert e
    exact ⟨_, rfl, rfl, rfl, rfl⟩
  · intro email kvs
    rfl
  · intro email e
    exact ⟨_, rfl, rfl, rfl, rfl⟩

lemma finder_auth (topic : TopicDict) (k m : String) (hk : ¬ k.length < 10) :
    find_experts_for_topic topic k (.authError m) = authFallback topic := by
  simp [find_experts_for_topic, hk]

lemma finder_rate (topic : TopicDict) (k m : String) (hk : ¬ k.length < 10) :
    find_experts_for_topic topic k (.rateLimitError m) = rateLimitFallback topic := by
  simp [find_experts_for_topic, hk]

lemma finder_generic (topic : TopicDict) (k ty m : String) (hk : ¬ k.length < 10) :
    find_experts_for_topic topic k (.otherExc ty m) = genericFallback topic ty m := by
  simp [find_experts_for_topic, hk]

lemma single_auth (topic : TopicDict) (k m : String) (hk : ¬ k.length < 10) :
    find_experts_for_single_topic topic (.returns k (.authError m)) = authFallback topic := by
  show find_experts_for_single_topic_core topic
      (.ok (find_experts_for_topic topic k (.authError m))) = _
  rw [finder_auth topic k m hk]
  exact core_ok_obj topic _ (by simp [authFallback])

lemma single_rate (topic : TopicDict) (k m : String) (hk : ¬ k.length < 10) :
    find_experts_for_single_topic topic (.returns k (.rateLimitError m))
      = rateLimitFallback topic := by
  show find_experts_for_single_topic_core topic
      (.ok (find_experts_for_topic topic k (.rateLimitError m))) = _
  rw [finder_rate topic k m hk]
  exact core_ok_obj topic _ (by simp [rateLimitFallback])

lemma single_generic (topic : TopicDict) (k ty m : String) (hk : ¬ k.length < 10) :
    find_experts_for_single_topic topic (.returns k (.otherExc ty m))
      = genericFallback topic ty m := by
  show find_experts_for_single_topic_core topic
      (.ok (find_experts_for_topic topic k (.otherExc ty m))) = _
  rw [finder_generic topic k ty m hk]
  exact core_ok_obj topic _ (by simp [genericFallback])

/-- Claim C3: each of the three simulated ExpertFinder failures (auth
error, rate limit, generic exception from the LLM call) makes
`find_experts_for_single_topic` return — never raise — a structure with
`error: true` whose first recommendation holds exactly one placeholder
expert, and the three failure classes carry distinct placeholder texts:
an auth-problem description, retry-later guidance, or the error type
and message. -/
theorem expert_failure_placeholders (topic : TopicDict) (k m1 m2 ty m3 : String)
    (hk : 10 ≤ k.length) :
    ((find_experts_for_single_topic topic (.returns k (.authError m1))).getKey "error"
        = some (.bool true) ∧
     (∃ ex, expertsOfFirstRec (find_experts_for_single_topic topic
          (.returns k (.authError m1))) = some [ex] ∧
        ex.getKey "name" = some (.str "API Authentication Error") ∧
        ex.getKey "expertise"
          = some (.str "OpenAI API authentication error. Please check your API key."))) ∧
    ((find_experts_for_single_topic topic (.returns k (.rateLimitError m2))).getKey "error"
        = some (.bool true) ∧
     (∃ ex, expertsOfFirstRec (find_experts_for_single_topic topic
          (.returns k (.rateLimitError m2))) = some [ex] ∧
        ex.getKey "name" = some (.str "API Rate Limit Error") ∧
        ex.getKey "expertise"
          = some (.str "OpenAI API rate limit exceeded. Please try again later."))) ∧
    ((find_experts_for_single_topic topic (.returns k (.otherExc ty m3))).getKey "error"
        = some (.bool true) ∧
     (∃ ex, expertsOfFirstRec (find_experts_for_single_topic topic
          (.returns k (.otherExc ty m3))) = some [ex] ∧
        ex.getKey "name" = some (.str "Error fetching experts") ∧
        ex.getKey "expertise" = some (.str ("API error: " ++ ty ++ ": " ++ m3)))) ∧
    ("API Authentication Error" ≠ "API Rate Limit Error" ∧
     "API Authentication Error" ≠ "Error fetching experts" ∧
     "API Rate Limit Error" ≠ "Error fetching experts") := by
  have hk' : ¬ k.length < 10 := by omega
  refine ⟨?_, ?_, ?_, by decide, by decide, by decide⟩
  · rw [single_auth topic k m1 hk']
    exact ⟨rfl, _, rfl, rfl, rfl⟩
  · rw [single_rate topic k m2 hk']
    exact ⟨rfl, _, rfl, rfl, rfl⟩
  · rw [single_generic topic k ty m3 hk']
    exact ⟨rfl, _, rfl, rfl, rfl⟩

/-- Witness for C3 at a concrete topic and key. -/
theorem expert_failure_placeholders_witness :
    10 ≤ ("0123456789" : String).length ∧
    (∃ ex, expertsOfFirstRec (find_experts_for_single_topic ⟨some 4, some "Hurricane"⟩
        (.returns "0123456789" (.authError "bad key"))) = some [ex] ∧
      ex.getKey "name" = some (.str "API Authentication Error")) :=
  ⟨by decide, by
    obtain ⟨⟨h1, ex, h2, h3, h4⟩, _⟩ :=
      expert_failure_placeholders ⟨some 4, some "Hurricane"⟩ "0123456789" "bad key" "rl" "T" "m"
        (by decide)
    exact ⟨ex, h2, h3⟩⟩

lemma finder_success_echo (topic : TopicDict) (k : String) (hk : ¬ k.length < 10) :
    find_experts_for_topic topic k (.success (echoLLMResponse topic))
      = echoLLMResponse topic := by
  simp [find_experts_for_topic, hk, pyContains, echoLLMResponse]

lemma single_success_echo (topic : TopicDict) (k : String) (hk : ¬ k.length < 10) :
    find_experts_for_single_topic topic (.returns k (.success (echoLLMResponse topic)))
      = echoLLMResponse topic := by
  show find_experts_for_single_topic_core topic
      (.ok (find_experts_for_topic topic k (.success (echoLLMResponse topic)))) = _
  rw [finder_success_echo topic k hk]
  exact core_ok_obj topic _ (by simp [echoLLMResponse])

/-- Claim C4: round-trip — when the LLM honors the prompt (mocked by
`echoLLMResponse`, which echoes the JSON skeleton the prompt embeds the
headline into), the single-topic mode yields a recommendation whose
`topic` field equals the input topic's `headline` byte for byte. -/
theorem topic_headline_roundtrip (topic : TopicDict) (k h : String)
    (hk : 10 ≤ k.length) (hh : topic.headline = some h) :
    ∃ rec rest,
      (find_experts_for_single_topic topic
          (.returns k (.success (echoLLMResponse topic)))).getKey "expert_recommendations"
        = some (.arr (rec :: rest)) ∧
      rec.getKey "topic" = some (.str h) := by
  have hk' : ¬ k.length < 10 := by omega
  rw [single_success_echo topic k hk']
  refine ⟨_, [], rfl, ?_⟩
  simp [JValue.getKey, lookupKV, promptTopicHeadline, hh]

/-- Witness for C4 at a concrete topic and key. -/
theorem topic_headline_roundtrip_witness :
    10 ≤ ("0123456789" : String).length ∧
    (TopicDict.mk (some 2) (some "Echo Headline")).headline = some "Echo Headline" ∧
    (∃ rec rest,
      (find_experts_for_single_topic ⟨some 2, some "Echo Headline"⟩
          (.returns "0123456789"
            (.success (echoLLMResponse ⟨some 2, some "Echo Headline"⟩)))).getKey
          "expert_recommendations" = some (.arr (rec :: rest)) ∧
      rec.getKey "topic" = some (.str "Echo Headline")) :=
  ⟨by decide, rfl,
    topic_headline_roundtrip ⟨some 2, some "Echo Headline"⟩ "0123456789" "Echo Headline"
      (by decide) rfl⟩

lemma finder_success_missing (topic : TopicDict) (k : String)
    (kvs : List (String × JValue)) (hk : ¬ k.length < 10)
    (hmiss : kvs.any (fun p => decide (p.1 = "expert_recommendations")) = false) :
    find_experts_for_topic topic k (.success (.obj kvs)) = defaultStructure topic := by
  simp [find_experts_for_topic, hk, pyContains, hmiss]

/-- Claim C7: when the parsed LLM response is an object lacking the
top-level `expert_recommendations` key, `find_experts_for_topic`
substitutes the minimal well-formed structure — one recommendation with
the input topic's defaulted `topic_id` and `headline` and an empty
experts list — instead of raising, and the single-topic wrapper passes
it on unchanged. -/
theorem missing_recommendations_substituted (topic : TopicDict) (k : String)
    (kvs : List (String × JValue)) (hk : 10 ≤ k.length)
    (hmiss : kvs.any (fun p => decide (p.1 = "expert_recommendations")) = false) :
    find_experts_for_topic topic k (.success (.obj kvs))
        = .obj [("expert_recommendations", .arr [
            .obj [("topic_id", .num (topic.topic_id.getD 1)),
                  ("topic", .str (topic.headline.getD "")),
                  ("experts", .arr [])]])] ∧
    find_experts_for_single_topic topic (.returns k (.success (.obj kvs)))
        = .obj [("expert_recommendations", .arr [
            .obj [("topic_id", .num (topic.topic_id.getD 1)),
                  ("topic", .str (topic.headline.getD "")),
                  ("experts", .arr [])]])] := by
  have hk' : ¬ k.length < 10 := by omega
  constructor
  · rw [finder_success_missing topic k kvs hk' hmiss]
    rfl
  · show find_experts_for_single_topic_core topic
        (.ok (find_experts_for_topic topic k (.success (.obj kvs)))) = _
    rw [finder_success_missing topic k kvs hk' hmiss]
    exact core_ok_obj topic _ (by simp)

/-- Witness for C7 at a concrete topic, key and keyless response. -/
theorem missing_recommendations_substituted_witness :
    10 ≤ ("0123456789" : String).length ∧
    ([(("foo" : String), JValue.null)].any
        (fun p => decide (p.1 = "expert_recommendations")) = false) ∧
    find_experts_for_single_topic ⟨some 3, some "Headline X"⟩
        (.returns "0123456789" (.success (.obj [("foo", .null)])))
      = .obj [("expert_recommendations", .arr [
          .obj [("topic_id", .num 3), ("topic", .str "Headline X"),
                ("experts", .arr [])]])] :=
  ⟨by decide, by decide,
    (missing_recommendations_substituted ⟨some 3, some "Headline X"⟩ "0123456789"
      [("foo", .null)] (by decide) (by decide)).2⟩

/-- Claim C10 (counterexample): an LLM success whose parsed JSON is the
object binding `expert_recommendations` to an empty list passes through
the wrapper unchanged, so the result carries the key with zero
recommendations — the claimed "at least one recommendation" fails on
that outcome. -/
theorem single_topic_passthrough_counterexample :
    find_experts_for_single_topic ⟨some 7, some "Quantum"⟩
        (.returns "0123456789" (.success (.obj [("expert_recommendations", .arr [])])))
      = .obj [("expert_recommendations", .arr [])] ∧
    ¬ FirstRecDefaulted ⟨some 7, some "Quantum"⟩
        (find_experts_for_single_topic ⟨some 7, some "Quantum"⟩
          (.returns "0123456789" (.success (.obj [("expert_recommendations", .arr [])])))) := by
  refine ⟨rfl, ?_⟩
  intro h
  obtain ⟨rec, rest, h1, -, -⟩ := h
  rw [show find_experts_for_single_topic ⟨some 7, some "Quantum"⟩
      (.returns "0123456789" (.success (.obj [("expert_recommendations", .arr [])])))
        = JValue.obj [("expert_recommendations", .arr [])] from rfl] at h1
  simp [JValue.getKey, lookupKV] at h1

lemma totality_conclusion_of_fallback {topic : TopicDict} {call : FinderCallOutcome}
    {r : JValue} (hres : find_experts_for_single_topic topic call = r)
    (hkvs : ∃ kvs, r = JValue.obj kvs) (hkey : r.hasKey "expert_recommendations" = true)
    (hfr : FirstRecDefaulted topic r) :
    (∃ kvs, find_experts_for_single_topic topic call = .obj kvs) ∧
    (find_experts_for_single_topic topic call).hasKey "expert_recommendations" = true ∧
    (PassThroughCall call ∨ FirstRecDefaulted topic (find_experts_for_single_topic topic call)) := by
  rw [hres]
  exact ⟨hkvs, hkey, Or.inr hfr⟩

/-- Claim C10 (amended): `find_experts_for_single_topic` is total — for
every input topic dict and every outcome of the inner call (success
with arbitrary parsed JSON, any typed LLM failure, or an exception
escaping the finder, e.g. while its `except` clauses resolve) it
returns a dict carrying the `expert_recommendations` key and never
propagates an exception; and in every case except the pass-through of a
valid-key success whose parsed object already holds the key, the first
recommendation carries the input's `topic_id` (default 1) and
`headline` (default the empty string). -/
theorem single_topic_totality (topic : TopicDict) (call : FinderCallOutcome) :
    (∃ kvs, find_experts_for_single_topic topic call = .obj kvs) ∧
    (find_experts_for_single_topic topic call).hasKey "expert_recommendations" = true ∧
    (PassThroughCall call ∨ FirstRecDefaulted topic (find_experts_for_single_topic topic call)) := by
  cases call with
  | raises e =>
    exact totality_conclusion_of_fallback rfl ⟨_, rfl⟩ rfl
      (firstRec_singleTopicFallback topic (excMessage e))
  | returns k llm =>
    by_cases hk : k.length < 10
    · have hres : find_experts_for_single_topic topic (.returns k llm)
          = genericFallback topic "ValueError"
              "OpenAI API key is missing or invalid. Please check your .env file." := by
        show find_experts_for_single_topic_core topic
            (.ok (find_experts_for_topic topic k llm)) = _
        have hf : find_experts_for_topic topic k llm = genericFallback topic "ValueError"
            "OpenAI API key is missing or invalid. Please check your .env file." := by
          simp [find_experts_for_topic, hk]
        rw [hf]
        exact core_ok_obj topic _ (by simp)
      exact totality_conclusion_of_fallback hres ⟨_, rfl⟩ rfl
        (firstRec_genericFallback topic _ _)
    · cases llm with
      | success v =>
        cases v with
        | obj kvs =>
          cases hin : kvs.any (fun p => decide (p.1 = "expert_recommendations")) with
          | true =>
            have hne : kvs ≠ [] := by
              intro h0
              rw [h0] at hin
              simp at hin
            have hres : find_experts_for_single_topic topic
                (.returns k (.success (.obj kvs))) = .obj kvs := by
              show find_experts_for_single_topic_core topic
                  (.ok (find_experts_for_topic topic k (.success (.obj kvs)))) = _
              have hf : find_experts_for_topic topic k (.success (.obj kvs)) = .obj kvs := by
                simp [find_experts_for_topic, hk, pyContains, hin]
              rw [hf]
              exact core_ok_obj topic kvs hne
            rw [hres]
            exact ⟨⟨_, rfl⟩, lookupKV_isSome_of_any kvs _ hin,
              Or.inl ⟨k, kvs, rfl, hk, hin⟩⟩
          | false =>
            have hres : find_experts_for_single_topic topic
                (.returns k (.success (.obj kvs))) = defaultStructure topic := by
              show find_experts_for_single_topic_core topic
                  (.ok (find_experts_for_topic topic k (.success (.obj kvs)))) = _
              rw [finder_success_missing topic k kvs hk hin]
              exact core_ok_obj topic _ (by simp)
            exact totality_conclusion_of_fallback hres ⟨_, rfl⟩ rfl
              (firstRec_defaultStructure topic)
        | arr xs =>
          cases hin : xs.any
              (fun x => match x with | .str s => decide (s = "expert_recommendations") | _ => false) with
          | true =>
            have hne : xs ≠ [] := by
              intro h0
              rw [h0] at hin
              simp at hin
            have hres : find_experts_for_single_topic topic
                (.returns k (.success (.arr xs)))
                  = singleTopicFallback topic (attrErrMsgGet (.arr xs)) := by
              show find_experts_for_single_topic_core topic
                  (.ok (find_experts_for_topic topic k (.success (.arr xs)))) = _
              have hf : find_experts_for_topic topic k (.success (.arr xs)) = .arr xs := by
                simp [find_experts_for_topic, hk, pyContains, hin]
              rw [hf]
              have ht : jTruthy (.arr xs) = true := by
                simp [jTruthy, List.isEmpty_iff, hne]
              simp [find_experts_for_single_topic_core, ht]
            exact totality_conclusion_of_fallback hres ⟨_, rfl⟩ rfl
              (firstRec_singleTopicFallback topic _)
          | false =>
            have hres : find_experts_for_single_topic topic
                (.returns k (.success (.arr xs))) = defaultStructure topic := by
              show find_experts_for_single_topic_core topic
                  (.ok (find_experts_for_topic topic k (.success (.arr xs)))) = _
              have hf : find_experts_for_topic topic k (.success (.arr xs))
                  = defaultStructure topic := by
                simp [find_experts_for_topic, hk, pyContains, hin]
              rw [hf]
              exact core_ok_obj topic _ (by simp)
            exact totality_conclusion_of_fallback hres ⟨_, rfl⟩ rfl
              (firstRec_defaultStructure topic)
        | str s =>
          cases hin : strContainsB s "expert_recommendations" with
          | true =>
            have hne : s ≠ "" := by
              intro h0
              rw [h0] at hin
              exact absurd hin (by decide)
            have hres : find_experts_for_single_topic topic
                (.returns k (.success (.str s)))
                  = singleTopicFallback topic (attrErrMsgGet (.str s)) := by
              show find_experts_for_single_topic_core topic
                  (.ok (find_experts_for_topic topic k (.success (.str s)))) = _
              have hf : find_experts_for_topic topic k (.success (.str s)) = .str s := by
                simp [find_experts_for_topic, hk, pyContains, hin]
              rw [hf]
              simp [find_experts_for_single_topic_core, jTruthy, hne]
            exact totality_conclusion_of_fallback hres ⟨_, rfl⟩ rfl
              (firstRec_singleTopicFallback topic _)
          | false =>
            have hres : find_experts_for_single_topic topic
                (.returns k (.success (.str s))) = defaultStructure topic := by
              show find_experts_for_single_topic_core topic
                  (.ok (find_experts_for_topic topic k (.success (.str s)))) = _
              have hf : find_experts_for_topic topic k (.success (.str s))
                  = defaultStructure topic := by
                simp [find_experts_for_topic, hk, pyContains, hin]
              rw [hf]
              exact core_ok_obj topic _ (by simp)
            exact totality_conclusion_of_fallback hres ⟨_, rfl⟩ rfl
              (firstRec_defaultStructure topic)
        | null =>
          have hres : find_experts_for_single_topic topic (.returns k (.success .null))
              = genericFallback topic "TypeError" (notIterableMsg .null) := by
            show find_experts_for_single_topic_core topic
                (.ok (find_experts_for_topic topic k (.success .null))) = _
            have hf : find_experts_for_topic topic k (.success .null)
                = genericFallback topic "TypeError" (notIterableMsg .null) := by
              simp [find_experts_for_topic, hk, pyContains, excTypeName, excMessage]
            rw [hf]
            exact core_ok_obj topic _ (by simp)
          exact totality_conclusion_of_fallback hres ⟨_, rfl⟩ rfl
            (firstRec_genericFallback topic _ _)
        | bool b =>
          have hres : find_experts_for_single_topic topic (.returns k (.success (.bool b)))
              = genericFallback topic "TypeError" (notIterableMsg (.bool b)) := by
            show find_experts_for_single_topic_core topic
                (.ok (find_experts_for_topic topic k (.success (.bool b)))) = _
            have hf : find_experts_for_topic topic k (.success (.bool b))
                = genericFallback topic "TypeError" (notIterableMsg (.bool b)) := by
              simp [find_experts_for_topic, hk, pyContains, excTypeName, excMessage]
            rw [hf]
            exact core_ok_obj topic _ (by simp)
          exact totality_conclusion_of_fallback hres ⟨_, rfl⟩ rfl
            (firstRec_genericFallback topic _ _)
        | num n =>
          have hres : find_experts_for_single_topic topic (.returns k (.success (.num n)))
              = genericFallback topic "TypeError" (notIterableMsg (.num n)) := by
            show find_experts_for_single_topic_core topic
                (.ok (find_experts_for_topic topic k (.success (.num n)))) = _
            have hf : find_experts_for_topic topic k (.success (.num n))
                = genericFallback topic "TypeError" (notIterableMsg (.num n)) := by
              simp [find_experts_for_topic, hk, pyContains, excTypeName, excMessage]
            rw [hf]
            exact core_ok_obj topic _ (by simp)
          exact totality_conclusion_of_fallback hres ⟨_, rfl⟩ rfl
            (firstRec_genericFallback topic _ _)
      | emptyContent =>
        have hres : find_experts_for_single_topic topic (.returns k .emptyContent)
            = genericFallback topic "ValueError" "Empty response received from OpenAI API" := by
          show find_experts_for_single_topic_core topic
              (.ok (find_experts_for_topic topic k .emptyContent)) = _
          have hf : find_experts_for_topic topic k .emptyContent
              = genericFallback topic "ValueError"
                  "Empty response received from OpenAI API" := by
            simp [find_experts_for_topic, hk]
          rw [hf]
          exact core_ok_obj topic _ (by simp)
        exact totality_conclusion_of_fallback hres ⟨_, rfl⟩ rfl
          (firstRec_genericFallback topic _ _)
      | parseError m =>
        have hres : find_experts_for_single_topic topic (.returns k (.parseError m))
            = genericFallback topic "JSONDecodeError" m := by
          show find_experts_for_single_topic_core topic
              (.ok (find_experts_for_topic topic k (.parseError m))) = _
          have hf : find_experts_for_topic topic k (.parseError m)
              = genericFallback topic "JSONDecodeError" m := by
            simp [find_experts_for_topic, hk]
          rw [hf]
          exact core_ok_obj topic _ (by simp)
        exact totality_conclusion_of_fallback hres ⟨_, rfl⟩ rfl
          (firstRec_genericFallback topic _ _)
      | authError m =>
        exact totality_conclusion_of_fallback (single_auth topic k m hk) ⟨_, rfl⟩ rfl
          (firstRec_authFallback topic)
      | rateLimitError m =>
        exact totality_conclusion_of_fallback (single_rate topic k m hk) ⟨_, rfl⟩ rfl
          (firstRec_rateLimitFallback topic)
      | otherExc ty m =>
        exact totality_conclusion_of_fallback (single_generic topic k ty m hk) ⟨_, rfl⟩ rfl
          (firstRec_genericFallback topic ty m)
